import Mathlib

/-!
A verification development for the ctraffic traffic generator
(cmd/ctraffic/main.go).  The Go code is shallowly embedded: pure
computations become Lean functions, the per-worker control flow becomes
explicit step functions over small state records, machine integers are
modelled as Nat/Int with explicit `% 2^32` where uint32 wrap-around
matters, and fallible operations return Option/Except.  Durations and
timestamps are in nanoseconds (Go's time.Duration unit).
-/

namespace Ctraffic

/-- time.Second in nanoseconds. -/
def timeSecond : Int := 1000000000

/-- time.Millisecond in nanoseconds (as a Nat, for backoff arithmetic). -/
def msNs : Nat := 1000000

/-- 2^32, the modulus of Go's uint32 arithmetic. -/
def u32Mod : Nat := 4294967296

/-- The per-connection record `connData` of main.go.  `connected`,
`err` and `tcpinfoRetrans` use Option for Go's zero time / nil error /
nil *TCPInfo; of the TCPInfo struct only the `Total_retrans` field is
ever read, so only that field is modelled.  Timestamps are absolute
nanosecond counts. -/
structure connData where
  id : Nat
  psize : Nat
  rate : ℚ
  sent : Nat
  nPacketsReceived : Nat
  nPacketsDropped : Nat
  err : Option String
  tcpinfoRetrans : Option Nat
  started : Int
  connected : Option Int
  ended : Int
  localAdr : String
  remote : String
  host : String
deriving DecidableEq

/-- The all-zero `connData`, Go's zero value for an unclaimed slot. -/
def zeroConnData : connData :=
  ⟨0, 0, 0, 0, 0, 0, none, none, 0, none, 0, "", "", ""⟩

/-- The `connstats` record of main.go (per-connection statistics as
serialized).  `Started`/`Connect`/`Ended` are offsets from the run
start, in nanoseconds. -/
structure connstats where
  Started : Int
  Connect : Int
  Ended : Int
  Err : String
  Sent : Nat
  Received : Nat
  Dropped : Nat
  Retransmits : Nat
  Local : String
  Remote : String
  Host : String
deriving DecidableEq

/-- Go's zero value for `connstats`. -/
def zeroConnstats : connstats := ⟨0, 0, 0, "", 0, 0, 0, 0, "", "", ""⟩

/-- The `sample` record of main.go. -/
structure sample where
  Time : Int
  Sent : Nat
  Received : Nat
  Dropped : Nat
deriving DecidableEq

/-- The `statistics` record of main.go.  `Started` (a time.Time in Go)
is modelled as a nanosecond count; uint32 counters as Nat, int64
durations as Int, the float64 rate as ℚ.  The nil/empty distinction of
Go slices is not modelled: a nil slice and an empty slice are both
`[]`. -/
structure statistics where
  Started : Int
  Duration : Int
  Rate : ℚ
  Connections : Int
  PacketSize : Nat
  FailedConnections : Nat
  Sent : Nat
  Received : Nat
  Dropped : Nat
  Retransmits : Nat
  FailedConnects : Nat
  ConnStats : List connstats
  Samples : List sample
deriving DecidableEq

/-- Conversion of one `connData` entry into a `connstats` record,
exactly the body of the copy loop in `copyStats` (main.go): offsets are
relative to `s.Started`, a zero `connected` time leaves `Connect` at 0,
a nil error leaves `Err` empty, a nil tcpinfo leaves `Retransmits`
at 0. -/
def connDataToConnstats (sStarted : Int) (cd : connData) : connstats where
  Started := cd.started - sStarted
  Connect := match cd.connected with | none => 0 | some t => t - sStarted
  Ended := cd.ended - sStarted
  Err := match cd.err with | none => "" | some e => e
  Sent := cd.sent
  Received := cd.nPacketsReceived
  Dropped := cd.nPacketsDropped
  Retransmits := match cd.tcpinfoRetrans with | none => 0 | some r => r
  Local := cd.localAdr
  Remote := cd.remote
  Host := cd.host

/-- Sum of `Total_retrans` over the entries whose tcpinfo is non-nil,
as folded into `s.Retransmits` by both branches of `copyStats`. -/
def sumRetrans (l : List connData) : Nat :=
  l.foldl (fun a cd => a + cd.tcpinfoRetrans.getD 0) 0

/-- `copyStats` of main.go.  `cData` is the global slot table, `nConn`
the global claim counter.  The "all" branch materializes
`make([]connstats, nConn)` (zero-filled) and fills the first
`min (len cData) nConn` entries from the table, folding their
retransmits into the total; every other verbosity folds the
retransmits of the whole table and sets `Samples` to nil. -/
def copyStats (verb : String) (cData : List connData) (nConn : Nat)
    (s : statistics) : statistics :=
  if verb = "all" then
    { s with
      ConnStats := (List.range nConn).map (fun i =>
        if i < min cData.length nConn then
          connDataToConnstats s.Started (cData.getD i zeroConnData)
        else zeroConnstats)
      Retransmits := s.Retransmits + sumRetrans (cData.take nConn) }
  else
    { s with
      Retransmits := s.Retransmits + sumRetrans cData
      Samples := [] }

/-- `printStats` of main.go: with verbosity "none" no report is
emitted (`none`); otherwise the report is the `copyStats` result. -/
def printStats (verb : String) (cData : List connData) (nConn : Nat)
    (s : statistics) : Option statistics :=
  if verb ≠ "none" then some (copyStats verb cData nConn s) else none

/-- Result of one slot claim (main.go `client`/`udpClient`): either the
fatal "Too many re-connects" abort, which first flushes the statistics
collected so far via `printStats` (the carried Option is that flushed
report), or a valid slot index. -/
inductive ClaimResult where
  | fatalTooManyReconnects (flushed : Option statistics)
  | ok (idx : Nat)
deriving DecidableEq

/-- Whether a claim outcome is the fatal abort. -/
def ClaimResult.isFatal : ClaimResult → Bool
  | .fatalTooManyReconnects _ => true
  | .ok _ => false

/-- The slot-claim step shared by `client` and `udpClient` (main.go):
`id := atomic.AddUint32(&nConn, 1) - 1` issues index `k % 2^32` for the
k-th claim (0-based, uint32 wrap-around modelled); if
`int(id) >= len(cData)` the program flushes statistics with
`printStats` (the counter now reads `(k+1) % 2^32`) and aborts via
log.Fatal, otherwise the index is used to address `cData`. -/
def claimSlot (verb : String) (cData : List connData) (s : statistics)
    (k : Nat) : ClaimResult :=
  let id := k % u32Mod
  if cData.length ≤ id then
    .fatalTooManyReconnects (printStats verb cData ((k + 1) % u32Mod) s)
  else
    .ok id

/-- Outcome of the deadline check at the top of a worker's loop: either
the worker returns without claiming a slot, or it proceeds to claim
one. -/
inductive LoopHead where
  | stopped
  | claimed (r : ClaimResult)
deriving DecidableEq

/-- Top of the `client` loop (main.go): return if fewer than 2 seconds
remain until the context deadline, otherwise claim a slot. -/
def clientLoopHead (remainingNs : Int) (verb : String)
    (cData : List connData) (s : statistics) (k : Nat) : LoopHead :=
  if remainingNs < 2 * timeSecond then .stopped
  else .claimed (claimSlot verb cData s k)

/-- Top of the `udpClient` loop (main.go): return if fewer than 1
second remains until the context deadline, otherwise claim a slot. -/
def udpClientLoopHead (remainingNs : Int) (verb : String)
    (cData : List connData) (s : statistics) (k : Nat) : LoopHead :=
  if remainingNs < 1 * timeSecond then .stopped
  else .claimed (claimSlot verb cData s k)

/-- Environment observations for one iteration of the dial-retry loop
of `client` (main.go): whether `ctx.Err()` is non-nil after the sleep,
whether `time.Until(deadline) < 2*time.Second` at this iteration's
check, and whether the re-dial `conn.Connect` succeeds. -/
structure RetryObs where
  ctxErr : Bool
  untilDeadlineLt2s : Bool
  connectOk : Bool
deriving DecidableEq

/-- How the dial-retry loop of `client` exits. -/
inductive RetryExit where
  | ctxAbort
  | deadlineAbort
  | connected
deriving DecidableEq

/-- Result of the dial-retry loop: the exit kind, the final values of
the global FailedConnects and FailedConnections counters, whether
`cd.ended` was stamped to the nominal test end `Started + Duration`,
whether an error was recorded in the slot, and the list of sleep
durations (ns) performed, in order. -/
structure RetryOut where
  exit : RetryExit
  failedConnects : Nat
  failedConnections : Nat
  endedNominal : Bool
  errRecorded : Bool
  sleeps : List Nat
deriving DecidableEq

/-- One backoff update of the dial-retry loop (main.go):
`if backoff < time.Second { backoff += 100 * time.Millisecond }`. -/
def backoffStep (b : Nat) : Nat :=
  if b < 1000 * msNs then b + 100 * msNs else b

/-- The sleep performed at the n-th iteration (0-based) of the
dial-retry loop, starting from the initial
`backoff := 100 * time.Millisecond`. -/
def backoffSeq : Nat → Nat
  | 0 => 100 * msNs
  | n + 1 => backoffStep (backoffSeq n)

/-- The dial-retry loop of `client` (main.go), entered after the first
`conn.Connect` failed.  Each list element supplies the environment for
one iteration: sleep `backoff`; if the context is cancelled, stamp
`ended` to the nominal end, count one failed-connect and return; update
the backoff; if fewer than 2 seconds remain, stamp `ended` to the
nominal end and return without touching any counter; count one
failed-connect and re-dial, exiting the loop on success.  Returns
`none` when the observation list is exhausted with the dial still
failing. -/
def connectRetry : List RetryObs → Nat → Nat → Nat → Option RetryOut
  | [], _, _, _ => none
  | o :: rest, b, fc, fcn =>
    if o.ctxErr then
      some ⟨.ctxAbort, fc + 1, fcn, true, false, [b]⟩
    else if o.untilDeadlineLt2s then
      some ⟨.deadlineAbort, fc, fcn, true, false, [b]⟩
    else if o.connectOk then
      some ⟨.connected, fc + 1, fcn, false, false, [b]⟩
    else
      (connectRetry rest (backoffStep b) (fc + 1) fcn).map
        (fun r => { r with sleeps := b :: r.sleeps })

/-- Global counters touched by a worker's outcome handling. -/
structure WorkerCounters where
  failedConnections : Nat
  failedConnects : Nat
deriving DecidableEq

/-- Whether the worker's loop continues after outcome handling. -/
inductive WorkerNext where
  | terminate
  | loopAgain
deriving DecidableEq

/-- Result of a worker's outcome handling: the slot's final `ended`
stamp, the slot's recorded error, the updated counters, and whether the
loop continues. -/
structure OutcomeRes where
  endedAt : Int
  errRecorded : Option String
  counters : WorkerCounters
  next : WorkerNext
deriving DecidableEq

/-- Outcome handling after `conn.Run` in `client` (main.go): a nil
error stamps `ended` to the nominal end `s.Started + s.Duration` and
terminates; an error stamps `ended := now`, records the error,
increments FailedConnections, and loops again exactly when the
reconnect flag is set. -/
def clientRunOutcome (runErr : Option String) (now sStarted sDuration : Int)
    (reconnect : Bool) (st : WorkerCounters) : OutcomeRes :=
  match runErr with
  | none => ⟨sStarted + sDuration, none, st, .terminate⟩
  | some e =>
    ⟨now, some e,
     { st with failedConnections := st.failedConnections + 1 },
     if reconnect then .loopAgain else .terminate⟩

/-- Outcome handling after `udpConn.Run` in `udpClient` (main.go): a
nil error stamps `ended` to the nominal end and terminates; an error
stamps `ended := now`, records the error, touches no counter, and the
loop continues unconditionally (the reconnect flag is never
consulted). -/
def udpClientRunOutcome (runErr : Option String) (now sStarted sDuration : Int)
    (st : WorkerCounters) : OutcomeRes :=
  match runErr with
  | none => ⟨sStarted + sDuration, none, st, .terminate⟩
  | some e => ⟨now, some e, st, .loopAgain⟩

/-- The token-bucket limiter of golang.org/x/time/rate as used here,
frozen at its creation instant (no refill happens during creation):
the rate limit in tokens (bytes) per second, the burst size, and the
current token count. -/
structure Limiter where
  limit : ℚ
  burst : Nat
  tokens : Nat
deriving DecidableEq

/-- The drain loop `for lim.AllowN(time.Now(), psize) { }` of
`newLimiter` (main.go): repeatedly consume `psize` tokens while at
least `psize` are available. -/
def drainWhole (psize : Nat) (t : Nat) : Nat :=
  if h : 0 < psize ∧ psize ≤ t then drainWhole psize (t - psize) else t
termination_by t
decreasing_by exact Nat.sub_lt (Nat.lt_of_lt_of_le h.1 h.2) h.1

/-- `newLimiter` (main.go): `rate.NewLimiter(rate.Limit(r*1024.0),
psize*10)` creates a full bucket of `psize*10` tokens refilling at
`r*1024` bytes/s; `lim.WaitN(ctx, rand.Intn(psize))` returns
immediately (the bucket is full) consuming the random draw
`rnd < psize`, unless the context is cancelled, in which case
`newLimiter` returns nil; then the drain loop removes whole packets.
The float64 rate is modelled exactly in ℚ and the random draw is an
arbitrary value `rnd < psize`. -/
def newLimiter (cancelled : Bool) (rnd : Nat) (r : ℚ) (psize : Nat) :
    Option Limiter :=
  if cancelled then none
  else some ⟨r * 1024, psize * 10, drainWhole psize (psize * 10 - rnd)⟩

/-- The four per-bucket counters of `analyzeConnections` (main.go). -/
structure BucketCounts where
  act : Nat
  new : Nat
  fail : Nat
  connecting : Nat
deriving DecidableEq

/-- Componentwise sum of bucket counters. -/
def BucketCounts.add (x y : BucketCounts) : BucketCounts :=
  ⟨x.act + y.act, x.new + y.new, x.fail + y.fail,
   x.connecting + y.connecting⟩

/-- What one connection record contributes to the counters of the
bucket `(last, i]`, exactly the inner-loop body of
`analyzeConnections` (main.go): records ended before `last` are
skipped; records ended inside the bucket count as failed exactly when
they carry an error; surviving records not yet started are skipped;
surviving records count as new when started inside the bucket, and
additionally as connecting (never connected, or connected after `i`)
or as active. -/
def connBucketContribution (last i : Int) (c : connstats) : BucketCounts :=
  if c.Ended < last then ⟨0, 0, 0, 0⟩
  else if c.Ended < i then
    (if c.Err ≠ "" then ⟨0, 0, 1, 0⟩ else ⟨0, 0, 0, 0⟩)
  else if c.Started > i then ⟨0, 0, 0, 0⟩
  else
    let n : Nat := if c.Started > last then 1 else 0
    if c.Connect = 0 ∨ c.Connect > i then ⟨0, n, 0, 1⟩ else ⟨1, n, 0, 0⟩

/-- The counters of the bucket `(last, i]` over all connection
records. -/
def bucketCounts (conns : List connstats) (last i : Int) : BucketCounts :=
  conns.foldl (fun acc c => acc.add (connBucketContribution last i c))
    ⟨0, 0, 0, 0⟩

/-- The number of iterations of
`for i := time.Second; i < s.Duration; i += time.Second`. -/
def numBuckets (d : Int) : Nat :=
  if d ≤ 0 then 0 else ((d - 1) / timeSecond).toNat

/-- `analyzeConnections` (main.go): one output line per one-second
bucket, labelled with the bucket midpoint `last + 500ms` (printed in
seconds by Go; the nanosecond value is kept here).  The function
log.Fatals when it meets a record with `Ended == 0`, which happens
exactly when at least one bucket is processed and such a record
exists; this is modelled as `none`. -/
def analyzeConnections (s : statistics) :
    Option (List (Int × BucketCounts)) :=
  if numBuckets s.Duration ≠ 0 ∧ s.ConnStats.any (fun c => c.Ended = 0) then
    none
  else
    some ((List.range (numBuckets s.Duration)).map (fun k =>
      let last : Int := k * timeSecond
      (last + 500000000, bucketCounts s.ConnStats last (last + timeSecond))))

/-- One output line of `analyzeThroughput` (main.go) computed from two
consecutive samples: the midpoint time of the interval (Go prints it in
seconds; both the second count and the throughput are exact rationals
here), and the received-KB-per-second figure.  The subtraction and the
multiplication by the packet size happen in uint32 arithmetic, which is
modelled by explicit `% 2^32`.  Go's float division by a zero-length
interval yields Inf; ℚ yields 0 (no claim depends on that case). -/
def thrLine (ps : Nat) (last samp : sample) : ℚ × ℚ :=
  let i : Int := samp.Time - last.Time
  let t : Int := last.Time + i / 2
  let reckb : Nat := (samp.Received + u32Mod - last.Received) % u32Mod
    * ps % u32Mod / 1024
  ((t : ℚ) / (timeSecond : ℚ), (reckb : ℚ) / ((i : ℚ) / (timeSecond : ℚ)))

/-- `analyzeThroughput` (main.go): log.Fatal "No samples found" when
the sample series is nil, otherwise one line per pair of consecutive
samples. -/
def analyzeThroughput (s : statistics) : Except String (List (ℚ × ℚ)) :=
  match s.Samples with
  | [] => .error "No samples found"
  | first :: rest =>
    .ok ((rest.foldl
      (fun (acc : sample × List (ℚ × ℚ)) samp =>
        (samp, acc.2 ++ [thrLine s.PacketSize acc.1 samp]))
      (first, [])).2)

/-!  JSON statistics format.  JSON values are modelled by an AST whose
object keys range over the field names appearing in the format (Go's
encoder emits exactly these; the decoder ignores keys that do not match
a struct field, which is modelled by keys of the alphabet assigned to
no field of the record being decoded).  JSON numbers are modelled as
exact rationals: Go's encoder prints the shortest decimal that parses
back to the same float64/integer, so marshalling a number is injective
and is abstracted by carrying the value itself.  Go marshals `Started`
(a time.Time) as an RFC3339Nano string, which is an injective rendering
inverted by the parser; this string layer is abstracted as the decimal
rendering of the nanosecond count. -/

/-- The JSON object keys of the statistics format. -/
inductive JKey where
  | Started | Duration | Rate | Connections | PacketSize
  | FailedConnections | Sent | Received | Dropped | Retransmits
  | FailedConnects | ConnStats | Samples
  | Connect | Ended | Err | Local | Remote | Host | Time
deriving DecidableEq

/-- JSON values. -/
inductive Jval where
  | num (q : ℚ)
  | str (t : String)
  | arr (elems : List Jval)
  | obj (fields : List (JKey × Jval))

/-- The character of a decimal digit. -/
def digitChar (d : Nat) : Char := Char.ofNat (48 + d)

/-- Decimal rendering of a Nat (Go's fmt for unsigned decimals). -/
def natToString (n : Nat) : String :=
  if n = 0 then "0"
  else String.mk ((Nat.digits 10 n).reverse.map digitChar)

/-- Decimal digit test. -/
def isDigitChar (c : Char) : Bool := 48 ≤ c.toNat && c.toNat ≤ 57

/-- Numeric value of a digit character. -/
def digitVal (c : Char) : Nat := c.toNat - 48

/-- Parse a decimal Nat; `none` unless the string is a nonempty digit
sequence. -/
def parseNat (s : String) : Option Nat :=
  if s.data ≠ [] ∧ s.data.all isDigitChar then
    some (Nat.ofDigits 10 ((s.data.map digitVal).reverse))
  else none

/-- Decimal rendering of an Int. -/
def intToString (n : Int) : String :=
  if n < 0 then "-" ++ natToString n.natAbs else natToString n.toNat

/-- Parse a decimal Int. -/
def parseIntStr (s : String) : Option Int :=
  if s.data.head? = some '-' then
    (parseNat (String.mk s.data.tail)).map (fun (m : Nat) => -(m : Int))
  else
    (parseNat s).map (fun (m : Nat) => (m : Int))

/-- Decode a JSON value into a Go uint32: the number must be an
integer in `[0, 2^32)`, anything else is an unmarshalling error. -/
def parseU32 (j : Jval) : Option Nat :=
  match j with
  | .num q =>
    if q.den = 1 ∧ 0 ≤ q.num ∧ q.num < 4294967296 then some q.num.toNat
    else none
  | _ => none

/-- Decode a JSON value into a 64-bit integer (Go int / int64 /
time.Duration). -/
def parseI64 (j : Jval) : Option Int :=
  match j with
  | .num q =>
    if q.den = 1 ∧ -9223372036854775808 ≤ q.num
        ∧ q.num < 9223372036854775808 then some q.num
    else none
  | _ => none

/-- Decode a JSON value into a float64 (modelled exactly as ℚ). -/
def parseF64 (j : Jval) : Option ℚ :=
  match j with
  | .num q => some q
  | _ => none

/-- Decode a JSON string value. -/
def parseStr (j : Jval) : Option String :=
  match j with
  | .str t => some t
  | _ => none

/-- Decode a timestamp (see the abstraction note above). -/
def parseTime (j : Jval) : Option Int :=
  match j with
  | .str t => parseIntStr t
  | _ => none

/-- Marshalling of a `sample` (field order as in the Go struct). -/
def encodeSample (x : sample) : Jval :=
  .obj [(.Time, .num x.Time), (.Sent, .num x.Sent),
        (.Received, .num x.Received), (.Dropped, .num x.Dropped)]

/-- Marshalling of a `connstats` record; `Host` carries `omitempty`. -/
def encodeConnstats (c : connstats) : Jval :=
  .obj ([(.Started, .num c.Started), (.Connect, .num c.Connect),
         (.Ended, .num c.Ended), (.Err, .str c.Err),
         (.Sent, .num c.Sent), (.Received, .num c.Received),
         (.Dropped, .num c.Dropped), (.Retransmits, .num c.Retransmits),
         (.Local, .str c.Local), (.Remote, .str c.Remote)]
    ++ (if c.Host = "" then [] else [(.Host, .str c.Host)]))

/-- Marshalling of a `statistics` record; `ConnStats` and `Samples`
carry `omitempty`. -/
def encodeStats (s : statistics) : Jval :=
  .obj ([(.Started, .str (intToString s.Started)),
         (.Duration, .num s.Duration), (.Rate, .num s.Rate),
         (.Connections, .num s.Connections),
         (.PacketSize, .num s.PacketSize),
         (.FailedConnections, .num s.FailedConnections),
         (.Sent, .num s.Sent), (.Received, .num s.Received),
         (.Dropped, .num s.Dropped), (.Retransmits, .num s.Retransmits),
         (.FailedConnects, .num s.FailedConnects)]
    ++ (if s.ConnStats = [] then []
        else [(.ConnStats, .arr (s.ConnStats.map encodeConnstats))])
    ++ (if s.Samples = [] then []
        else [(.Samples, .arr (s.Samples.map encodeSample))]))

/-- Assignment of one JSON object entry to a `sample` under decoding,
as Go's reflection-driven decoder does: a key matching no field is
ignored, a matching key must decode at the field's type. -/
def assignSampleField (x : sample) : JKey × Jval → Option sample
  | (.Time, v) => (parseI64 v).map (fun w => { x with Time := w })
  | (.Sent, v) => (parseU32 v).map (fun w => { x with Sent := w })
  | (.Received, v) => (parseU32 v).map (fun w => { x with Received := w })
  | (.Dropped, v) => (parseU32 v).map (fun w => { x with Dropped := w })
  | _ => some x

/-- Decoding of a `sample` from a JSON value: start from the zero
value and assign the object's entries in order. -/
def decodeSample (j : Jval) : Option sample :=
  match j with
  | .obj fs => fs.foldlM assignSampleField ⟨0, 0, 0, 0⟩
  | _ => none

/-- Assignment of one JSON object entry to a `connstats` record under
decoding. -/
def assignConnField (c : connstats) : JKey × Jval → Option connstats
  | (.Started, v) => (parseI64 v).map (fun w => { c with Started := w })
  | (.Connect, v) => (parseI64 v).map (fun w => { c with Connect := w })
  | (.Ended, v) => (parseI64 v).map (fun w => { c with Ended := w })
  | (.Err, v) => (parseStr v).map (fun w => { c with Err := w })
  | (.Sent, v) => (parseU32 v).map (fun w => { c with Sent := w })
  | (.Received, v) => (parseU32 v).map (fun w => { c with Received := w })
  | (.Dropped, v) => (parseU32 v).map (fun w => { c with Dropped := w })
  | (.Retransmits, v) =>
    (parseU32 v).map (fun w => { c with Retransmits := w })
  | (.Local, v) => (parseStr v).map (fun w => { c with Local := w })
  | (.Remote, v) => (parseStr v).map (fun w => { c with Remote := w })
  | (.Host, v) => (parseStr v).map (fun w => { c with Host := w })
  | _ => some c

/-- Decoding of a `connstats` record from a JSON value. -/
def decodeConnstats (j : Jval) : Option connstats :=
  match j with
  | .obj fs => fs.foldlM assignConnField zeroConnstats
  | _ => none

/-- Decoding of a JSON array of `connstats`. -/
def parseConnArr (j : Jval) : Option (List connstats) :=
  match j with
  | .arr l => l.mapM decodeConnstats
  | _ => none

/-- Decoding of a JSON array of `sample`. -/
def parseSampleArr (j : Jval) : Option (List sample) :=
  match j with
  | .arr l => l.mapM decodeSample
  | _ => none

/-- Assignment of one JSON object entry to a `statistics` record under
decoding. -/
def assignStatsField (s : statistics) : JKey × Jval → Option statistics
  | (.Started, v) => (parseTime v).map (fun w => { s with Started := w })
  | (.Duration, v) => (parseI64 v).map (fun w => { s with Duration := w })
  | (.Rate, v) => (parseF64 v).map (fun w => { s with Rate := w })
  | (.Connections, v) =>
    (parseI64 v).map (fun w => { s with Connections := w })
  | (.PacketSize, v) =>
    (parseU32 v).map (fun w => { s with PacketSize := w })
  | (.FailedConnections, v) =>
    (parseU32 v).map (fun w => { s with FailedConnections := w })
  | (.Sent, v) => (parseU32 v).map (fun w => { s with Sent := w })
  | (.Received, v) => (parseU32 v).map (fun w => { s with Received := w })
  | (.Dropped, v) => (parseU32 v).map (fun w => { s with Dropped := w })
  | (.Retransmits, v) =>
    (parseU32 v).map (fun w => { s with Retransmits := w })
  | (.FailedConnects, v) =>
    (parseU32 v).map (fun w => { s with FailedConnects := w })
  | (.ConnStats, v) =>
    (parseConnArr v).map (fun w => { s with ConnStats := w })
  | (.Samples, v) =>
    (parseSampleArr v).map (fun w => { s with Samples := w })
  | _ => some s

/-- The zero `statistics` value Go decodes into. -/
def zeroStats : statistics := ⟨0, 0, 0, 0, 0, 0, 0, 0, 0, 0, 0, [], []⟩

/-- `readStats` (main.go): json-decode a `statistics` value; a type
mismatch on any present field is an error. -/
def readStats (j : Jval) : Option statistics :=
  match j with
  | .obj fs => fs.foldlM assignStatsField zeroStats
  | _ => none

/-- Range of a Go uint32 field. -/
def wfU32 (n : Nat) : Prop := n < 4294967296

/-- Range of a Go 64-bit integer field. -/
def wfI64 (n : Int) : Prop :=
  -9223372036854775808 ≤ n ∧ n < 9223372036854775808

/-- Field ranges of a `connstats` record as carried by the Go types. -/
def wfConn (c : connstats) : Prop :=
  wfI64 c.Started ∧ wfI64 c.Connect ∧ wfI64 c.Ended ∧ wfU32 c.Sent
  ∧ wfU32 c.Received ∧ wfU32 c.Dropped ∧ wfU32 c.Retransmits

/-- Field ranges of a `sample` record. -/
def wfSample (x : sample) : Prop :=
  wfI64 x.Time ∧ wfU32 x.Sent ∧ wfU32 x.Received ∧ wfU32 x.Dropped

/-- Field ranges of a `statistics` record as carried by the Go
types. -/
def wfStats (s : statistics) : Prop :=
  wfI64 s.Duration ∧ wfI64 s.Connections ∧ wfU32 s.PacketSize
  ∧ wfU32 s.FailedConnections ∧ wfU32 s.Sent ∧ wfU32 s.Received
  ∧ wfU32 s.Dropped ∧ wfU32 s.Retransmits ∧ wfU32 s.FailedConnects
  ∧ (∀ c ∈ s.ConnStats, wfConn c) ∧ (∀ x ∈ s.Samples, wfSample x)

/-! Theorems. -/

/-- C1: for every run (TCP or UDP client) and every slot claim, the
atomically issued index is checked against the slot-table capacity
before any array access: an index at or beyond capacity makes the
program flush the statistics collected so far (`printStats`) and abort
fatally with "Too many re-connects"; an accepted index is in bounds;
and, as long as no claim has aborted and the table capacity is below
2^32 (any feasible `nconn*retries`), any two claims receive distinct
slot indices. -/
theorem claimSlot_spec :
    (∀ (verb : String) (cData : List connData) (s : statistics) (k idx : Nat),
        claimSlot verb cData s k = .ok idx → idx < cData.length)
  ∧ (∀ (verb : String) (cData : List connData) (s : statistics) (k : Nat),
        cData.length ≤ k % u32Mod →
          claimSlot verb cData s k
            = .fatalTooManyReconnects
                (printStats verb cData ((k + 1) % u32Mod) s))
  ∧ (∀ (verb : String) (cData : List connData) (s : statistics) (j k : Nat),
        cData.length < u32Mod → j < k →
        (∀ m, m ≤ k → (claimSlot verb cData s m).isFatal = false) →
        ∃ idj idk, claimSlot verb cData s j = .ok idj
          ∧ claimSlot verb cData s k = .ok idk ∧ idj ≠ idk) := by
  have hfatal : ∀ (verb : String) (cData : List connData) (s : statistics)
      (m : Nat), (claimSlot verb cData s m).isFatal = false →
        m % u32Mod < cData.length := by
    intro verb cData s m h
    simp only [claimSlot] at h
    by_contra hle
    rw [if_pos (Nat.le_of_not_lt hle)] at h
    exact absurd h (by simp [ClaimResult.isFatal])
  refine ⟨?_, ?_, ?_⟩
  · intro verb cData s k idx h
    simp only [claimSlot] at h
    split at h
    · exact absurd h (by simp)
    · next hlt => cases h; omega
  · intro verb cData s k h
    simp only [claimSlot]
    rw [if_pos h]
  · intro verb cData s j k hcap hjk hok
    have hk : k % u32Mod < cData.length := hfatal _ _ _ _ (hok k le_rfl)
    have hklt : k < cData.length := by
      by_contra hge
      have := hfatal _ _ _ _ (hok cData.length (Nat.le_of_not_lt hge))
      rw [Nat.mod_eq_of_lt hcap] at this
      omega
    have hjlt : j < cData.length := lt_trans hjk hklt
    refine ⟨j % u32Mod, k % u32Mod, ?_, ?_, ?_⟩
    · simp only [claimSlot]
      rw [if_neg (Nat.not_le.mpr (hfatal _ _ _ _ (hok j hjk.le)))]
    · simp only [claimSlot]
      rw [if_neg (Nat.not_le.mpr hk)]
    · rw [Nat.mod_eq_of_lt (lt_trans hjlt hcap),
        Nat.mod_eq_of_lt (lt_trans hklt hcap)]
      omega

/-- A three-slot table used to witness the slot-claim theorem. -/
def cd3 : List connData := [zeroConnData, zeroConnData, zeroConnData]

/-- Witness for `claimSlot_spec`: on a 3-slot table, claims 1 and 2
are both accepted and receive distinct in-bounds indices. -/
theorem claimSlot_spec_witness :
    ∃ idj idk, claimSlot "summary" cd3 zeroStats 1 = .ok idj
      ∧ claimSlot "summary" cd3 zeroStats 2 = .ok idk ∧ idj ≠ idk :=
  claimSlot_spec.2.2 "summary" cd3 zeroStats 1 2 (by decide) (by decide)
    (fun m hm => by interval_cases m <;> rfl)

/-- C2 (counterexample): a TCP worker whose dial failed and which
abandons because fewer than 2 seconds remain exits the retry loop with
the FailedConnects counter untouched (here still 0), contradicting the
claim that the abandonment is always counted as a failed-connect. -/
theorem connectRetry_deadline_cex :
    connectRetry [⟨false, true, false⟩] (100 * msNs) 0 0
      = some ⟨.deadlineAbort, 0, 0, true, false, [100 * msNs]⟩
    ∧ (0 : Nat) ≠ 0 + 1 := ⟨rfl, by decide⟩

/-- C2 (amended): the dial-retry loop of `client` exits without a
connection in exactly two cases, context cancellation and deadline
proximity; both stamp the slot's `endedAt` to the nominal test end and
record no error, and neither touches FailedConnections; the
cancellation case increments FailedConnects once more, while the
deadline-proximity case returns without any further FailedConnects
increment.  The four equations cover every shape of a loop
iteration. -/
theorem connectRetry_spec :
    (∀ (rest : List RetryObs) (a c : Bool) (b fc fcn : Nat),
        connectRetry (⟨true, a, c⟩ :: rest) b fc fcn
          = some ⟨.ctxAbort, fc + 1, fcn, true, false, [b]⟩)
  ∧ (∀ (rest : List RetryObs) (c : Bool) (b fc fcn : Nat),
        connectRetry (⟨false, true, c⟩ :: rest) b fc fcn
          = some ⟨.deadlineAbort, fc, fcn, true, false, [b]⟩)
  ∧ (∀ (rest : List RetryObs) (b fc fcn : Nat),
        connectRetry (⟨false, false, true⟩ :: rest) b fc fcn
          = some ⟨.connected, fc + 1, fcn, false, false, [b]⟩)
  ∧ (∀ (rest : List RetryObs) (b fc fcn : Nat),
        connectRetry (⟨false, false, false⟩ :: rest) b fc fcn
          = (connectRetry rest (backoffStep b) (fc + 1) fcn).map
              (fun r => { r with sleeps := b :: r.sleeps })) :=
  ⟨fun _ _ _ _ _ _ => rfl, fun _ _ _ _ _ => rfl, fun _ _ _ _ => rfl,
   fun _ _ _ _ => rfl⟩

/-- C3: whenever `Run` returns nil (TCP or UDP), the slot's `endedAt`
is stamped to the nominal test end `Started + Duration` — not to the
actual early-return time, from which it differs whenever they are
distinct — no error is recorded, no counter changes, and the worker
terminates. -/
theorem runOutcome_nilError_spec :
    (∀ (now sStarted sDuration : Int) (reconnect : Bool)
        (st : WorkerCounters),
        clientRunOutcome none now sStarted sDuration reconnect st
          = ⟨sStarted + sDuration, none, st, .terminate⟩)
  ∧ (∀ (now sStarted sDuration : Int) (st : WorkerCounters),
        udpClientRunOutcome none now sStarted sDuration st
          = ⟨sStarted + sDuration, none, st, .terminate⟩)
  ∧ (∀ (now sStarted sDuration : Int) (reconnect : Bool)
        (st : WorkerCounters),
        now ≠ sStarted + sDuration →
          (clientRunOutcome none now sStarted sDuration reconnect
            st).endedAt ≠ now
          ∧ (udpClientRunOutcome none now sStarted sDuration
              st).endedAt ≠ now) := by
  refine ⟨fun _ _ _ _ _ => rfl, fun _ _ _ _ => rfl, ?_⟩
  intro now sS sD rec st h
  exact ⟨fun hc => h hc.symm, fun hc => h hc.symm⟩

/-- Witness for `runOutcome_nilError_spec` at `now = 5`,
`Started + Duration = 10`. -/
theorem runOutcome_nilError_spec_witness :
    (5 : Int) ≠ 0 + 10
    ∧ ((clientRunOutcome none 5 0 10 true ⟨0, 0⟩).endedAt ≠ 5
       ∧ (udpClientRunOutcome none 5 0 10 ⟨0, 0⟩).endedAt ≠ 5) :=
  ⟨by decide,
   runOutcome_nilError_spec.2.2 5 0 10 true ⟨0, 0⟩ (by decide)⟩

/-- C4 (counterexample): a UDP worker iteration whose `Run` returns an
error leaves FailedConnections untouched and unconditionally loops
again — the reconnect flag is not consulted — contradicting the claim
that every erroring iteration increments FailedConnections and that
the worker restarts only if reconnection is enabled. -/
theorem udpRunOutcome_cex :
    udpClientRunOutcome (some "connection reset") 5 0 10 ⟨0, 0⟩
      = ⟨5, some "connection reset", ⟨0, 0⟩, .loopAgain⟩
    ∧ (udpClientRunOutcome (some "connection reset") 5 0 10
        ⟨0, 0⟩).counters.failedConnections = 0
    ∧ WorkerNext.loopAgain ≠ WorkerNext.terminate
    ∧ (0 : Nat) ≠ 0 + 1 :=
  ⟨rfl, rfl, by decide, by decide⟩

/-- C4 (amended): for a TCP worker iteration whose `Run` errs, the slot
is stamped `endedAt = now`, the error is recorded, FailedConnections is
incremented, and the loop continues exactly when reconnection is
enabled; for a UDP worker iteration whose `Run` errs, the slot is
stamped and the error recorded, but no counter changes and the loop
continues regardless of the reconnect flag. -/
theorem runOutcome_error_spec :
    (∀ (e : String) (now sStarted sDuration : Int) (st : WorkerCounters),
        clientRunOutcome (some e) now sStarted sDuration true st
          = ⟨now, some e, ⟨st.failedConnections + 1, st.failedConnects⟩,
             .loopAgain⟩)
  ∧ (∀ (e : String) (now sStarted sDuration : Int) (st : WorkerCounters),
        clientRunOutcome (some e) now sStarted sDuration false st
          = ⟨now, some e, ⟨st.failedConnections + 1, st.failedConnects⟩,
             .terminate⟩)
  ∧ (∀ (e : String) (now sStarted sDuration : Int) (st : WorkerCounters),
        udpClientRunOutcome (some e) now sStarted sDuration st
          = ⟨now, some e, st, .loopAgain⟩) :=
  ⟨fun _ _ _ _ _ => rfl, fun _ _ _ _ _ => rfl, fun _ _ _ _ _ => rfl⟩

/-- C5: a worker never claims a slot (initiates a new connection) once
the remaining time to the deadline is below its proactive-stop margin:
the TCP loop head stops exactly when fewer than 2 seconds remain, the
UDP loop head exactly when fewer than 1 second remains, and a TCP
dial-retry iteration with fewer than 2 seconds remaining aborts before
re-dialling. -/
theorem proactiveStop_spec :
    (∀ (rem : Int) (verb : String) (cData : List connData)
        (s : statistics) (k : Nat),
        clientLoopHead rem verb cData s k = .stopped
          ↔ rem < 2 * timeSecond)
  ∧ (∀ (rem : Int) (verb : String) (cData : List connData)
        (s : statistics) (k : Nat),
        udpClientLoopHead rem verb cData s k = .stopped
          ↔ rem < 1 * timeSecond)
  ∧ (∀ (rest : List RetryObs) (c : Bool) (b fc fcn : Nat),
        connectRetry (⟨false, true, c⟩ :: rest) b fc fcn
          = some ⟨.deadlineAbort, fc, fcn, true, false, [b]⟩) := by
  refine ⟨?_, ?_, fun _ _ _ _ _ => rfl⟩ <;>
    · intro rem verb cData s k
      simp only [clientLoopHead, udpClientLoopHead]
      split <;> simp_all

/-- The n-th sleep of the retry loop is the n-th iterate of the
backoff update starting from 100ms. -/
theorem backoffSeq_eq_iterate (n : Nat) :
    backoffSeq n = backoffStep^[n] (100 * msNs) := by
  induction n with
  | zero => rfl
  | succ n ih => rw [backoffSeq, ih, Function.iterate_succ_apply']

/-- The sleeps recorded by `connectRetry` starting from backoff `b`
are the successive iterates of the backoff update. -/
theorem connectRetry_sleeps (obs : List RetryObs) :
    ∀ (b fc fcn : Nat) (r : RetryOut), connectRetry obs b fc fcn = some r →
      r.sleeps
        = (List.range r.sleeps.length).map (fun t => backoffStep^[t] b) := by
  induction obs with
  | nil => intro b fc fcn r h; exact absurd h (by simp [connectRetry])
  | cons o rest ih =>
    intro b fc fcn r h
    rw [connectRetry] at h
    split at h
    · cases h; rfl
    · split at h
      · cases h; rfl
      · split at h
        · cases h; rfl
        · rw [Option.map_eq_some'] at h
          obtain ⟨r', hr', hr⟩ := h
          subst hr
          have ih' := ih (backoffStep b) (fc + 1) fcn r' hr'
          show b :: r'.sleeps = (List.range (r'.sleeps.length + 1)).map
            (fun t => backoffStep^[t] b)
          rw [List.range_succ_eq_map, List.map_cons, List.map_map]
          refine congrArg₂ List.cons rfl ?_
          conv_lhs => rw [ih']
          refine List.map_congr_left (fun t _ => ?_)
          simp only [Function.comp_apply, Function.iterate_succ_apply]

/-- C6: the backoff sleep sequence of a TCP worker's consecutive
failed dials: the n-th sleep (0-based) is `min ((n+1)·100ms) 1s` —
so the first sleep is 100ms, each sleep below the cap is followed by
one exactly 100ms longer, no sleep ever exceeds 1 second — and the
sleeps actually performed by the retry loop follow this sequence. -/
theorem backoff_spec :
    (∀ n, backoffSeq n = min ((n + 1) * (100 * msNs)) (1000 * msNs))
  ∧ backoffSeq 0 = 100 * msNs
  ∧ (∀ n, backoffSeq n < 1000 * msNs →
        backoffSeq (n + 1) = backoffSeq n + 100 * msNs)
  ∧ (∀ n, backoffSeq n ≤ 1000 * msNs)
  ∧ (∀ (obs : List RetryObs) (fc fcn : Nat) (r : RetryOut),
        connectRetry obs (100 * msNs) fc fcn = some r →
          r.sleeps = (List.range r.sleeps.length).map backoffSeq) := by
  have hmin : ∀ n, backoffSeq n = min ((n + 1) * (100 * msNs))
      (1000 * msNs) := by
    intro n
    induction n with
    | zero => simp [backoffSeq, msNs]
    | succ n ih =>
      rw [backoffSeq, backoffStep, ih]
      simp only [msNs]
      split <;> omega
  refine ⟨hmin, rfl, ?_, ?_, ?_⟩
  · intro n h
    rw [backoffSeq, backoffStep, if_pos h]
  · intro n
    rw [hmin]
    exact min_le_right _ _
  · intro obs fc fcn r h
    have h2 := connectRetry_sleeps obs (100 * msNs) fc fcn r h
    conv_lhs => rw [h2]
    exact List.map_congr_left (fun t _ => (backoffSeq_eq_iterate t).symm)

/-- The observation trace used to witness the backoff theorem: two
failed re-dials followed by a deadline-proximity abort. -/
def obsC6 : List RetryObs :=
  [⟨false, false, false⟩, ⟨false, false, false⟩, ⟨false, true, false⟩]

/-- The retry-loop result on `obsC6`. -/
def outC6 : RetryOut :=
  ⟨.deadlineAbort, 2, 0, true, false, [100 * msNs, 200 * msNs, 300 * msNs]⟩

/-- Witness for `backoff_spec`: the loop on `obsC6` sleeps 100ms,
200ms, 300ms, matching the backoff sequence. -/
theorem backoff_spec_witness :
    connectRetry obsC6 (100 * msNs) 0 0 = some outC6
    ∧ outC6.sleeps = (List.range outC6.sleeps.length).map backoffSeq :=
  ⟨rfl, backoff_spec.2.2.2.2 obsC6 0 0 outC6 rfl⟩

/-- The drain loop removes whole packets until fewer than one packet's
tokens remain. -/
theorem drainWhole_eq_mod (psize : Nat) (hp : 0 < psize) :
    ∀ t, drainWhole psize t = t % psize := by
  intro t
  induction t using Nat.strong_induction_on with
  | _ t ih =>
    rw [drainWhole]
    split
    · next h =>
      rw [ih (t - psize) (Nat.sub_lt (Nat.lt_of_lt_of_le h.1 h.2) h.1)]
      exact (Nat.mod_eq_sub_mod h.2).symm
    · next h =>
      exact (Nat.mod_eq_of_lt (by omega)).symm

/-- C7: `newLimiter` builds a token bucket with byte rate `r*1024` and
burst `10*psize`; the creation-time wait consumes the random draw
`rnd < psize` (returning nil when cancelled); the drain loop then
removes whole `psize`-sized amounts while available, so the bucket is
left within one packet's worth of empty: the remaining tokens are
`(10*psize - rnd) % psize < psize` and the amount drained is an exact
multiple of the packet size. -/
theorem newLimiter_spec (r : ℚ) (psize rnd : Nat) (hp : 0 < psize)
    (hr : rnd < psize) :
    newLimiter true rnd r psize = none
    ∧ ∃ l, newLimiter false rnd r psize = some l
        ∧ l.limit = r * 1024 ∧ l.burst = psize * 10
        ∧ l.tokens = (psize * 10 - rnd) % psize
        ∧ l.tokens < psize
        ∧ (psize * 10 - rnd - l.tokens) % psize = 0 := by
  refine ⟨rfl, ⟨_, rfl, rfl, rfl, ?_, ?_, ?_⟩⟩
  · exact drainWhole_eq_mod psize hp _
  · rw [drainWhole_eq_mod psize hp]
    exact Nat.mod_lt _ hp
  · rw [drainWhole_eq_mod psize hp]
    have h2 := Nat.mod_add_div (psize * 10 - rnd) psize
    have h3 : psize * 10 - rnd - (psize * 10 - rnd) % psize
        = psize * ((psize * 10 - rnd) / psize) := by omega
    rw [h3]
    exact Nat.mul_mod_right _ _

/-- Witness for `newLimiter_spec` at rate 10 KB/s, packet size 64,
random draw 13. -/
theorem newLimiter_spec_witness :
    (0 : Nat) < 64 ∧ (13 : Nat) < 64
    ∧ (newLimiter true 13 10 64 = none
       ∧ ∃ l, newLimiter false 13 10 64 = some l
          ∧ l.limit = 10 * 1024 ∧ l.burst = 64 * 10
          ∧ l.tokens = (64 * 10 - 13) % 64
          ∧ l.tokens < 64
          ∧ (64 * 10 - 13 - l.tokens) % 64 = 0) :=
  ⟨by decide, by decide, newLimiter_spec 10 64 13 (by decide) (by decide)⟩

/-- A connection record that, in the bucket containing its start, is
counted both as new and as active. -/
def cexConn : connstats :=
  ⟨500000000, 600000000, 2000000000, "", 0, 0, 0, 0, "", "", ""⟩

/-- A parsed statistics record with a 2-second duration and a single
connection. -/
def cexStats : statistics :=
  { zeroStats with Duration := 2000000000, ConnStats := [cexConn] }

/-- C8 (counterexample): on a record with one connection that starts
and connects inside the first bucket and survives it,
`analyzeConnections` counts the connection as both new and active —
the class counts of the bucket sum to 2, not 1 — so the classification
is not into exactly one of {active, new, failed, connecting}. -/
theorem analyzeConnections_cex :
    analyzeConnections cexStats = some [(500000000, ⟨1, 1, 0, 0⟩)]
    ∧ (1 + 1 + 0 + 0 : Nat) ≠ 1 := ⟨by decide, by decide⟩

/-- 37 connections starting at ≈0 that die when the server is killed,
lingering until ≈5.2s. -/
def exA : connstats :=
  ⟨10000000, 100000000, 5200000000, "connection reset", 0, 0, 0, 0,
   "", "", ""⟩

/-- 3 connections starting at ≈0 that die at the kill instant ≈4.5s. -/
def exB : connstats :=
  ⟨10000000, 100000000, 4500000000, "connection reset", 0, 0, 0, 0,
   "", "", ""⟩

/-- 3 reconnect slots claimed at ≈4.6s that never connect and are
stamped to the nominal end. -/
def exC : connstats :=
  ⟨4600000000, 0, 10000000000, "", 0, 0, 0, 0, "", "", ""⟩

/-- 29 reconnect slots claimed at ≈5.3s, stuck connecting to the
nominal end. -/
def exD : connstats :=
  ⟨5300000000, 0, 10000000000, "", 0, 0, 0, 0, "", "", ""⟩

/-- 8 reconnect slots claimed at ≈5.3s that reconnect at ≈5.4s and
fail again at ≈8.1s. -/
def exE : connstats :=
  ⟨5300000000, 5400000000, 8100000000, "connection reset", 0, 0, 0, 0,
   "", "", ""⟩

/-- 8 final reconnect slots claimed at ≈8.2s, stuck connecting to the
nominal end. -/
def exF : connstats :=
  ⟨8200000000, 0, 10000000000, "", 0, 0, 0, 0, "", "", ""⟩

/-- A concrete realization of the spec's literal example: 40
connections all starting at t≈0, the server killed at t≈4.5s, the
survivors dying by ≈5.2s, eight managing one more round that fails at
≈8.1s, everyone stuck re-connecting by bucket 8.5. -/
def exampleStats : statistics :=
  { zeroStats with
    Duration := 10000000000
    Connections := 40
    ConnStats := List.replicate 37 exA ++ List.replicate 3 exB
      ++ List.replicate 3 exC ++ List.replicate 29 exD
      ++ List.replicate 8 exE ++ List.replicate 8 exF }

/-- C8 (amended): per one-second bucket, `analyzeConnections` counts
every connection in at most one of {active, failed, connecting}, and
counts it as new — in addition to active or connecting, never on its
own — exactly when it survives the bucket and started inside it; on
the literal example the buckets are 0.5→40/40/0/0, 4.5→37/3/3/3 and
finally 8.5→0/8/8/40 (line format: midpoint, active, new, failed,
connecting). -/
theorem analyzeConnections_spec :
    (∀ (last i : Int) (c : connstats),
        (connBucketContribution last i c).act
          + (connBucketContribution last i c).fail
          + (connBucketContribution last i c).connecting ≤ 1
        ∧ (connBucketContribution last i c).new ≤ 1
        ∧ (connBucketContribution last i c).new
            ≤ (connBucketContribution last i c).act
              + (connBucketContribution last i c).connecting)
  ∧ analyzeConnections exampleStats
      = some [(500000000, ⟨40, 40, 0, 0⟩), (1500000000, ⟨40, 0, 0, 0⟩),
              (2500000000, ⟨40, 0, 0, 0⟩), (3500000000, ⟨40, 0, 0, 0⟩),
              (4500000000, ⟨37, 3, 3, 3⟩), (5500000000, ⟨8, 37, 37, 32⟩),
              (6500000000, ⟨8, 0, 0, 32⟩), (7500000000, ⟨8, 0, 0, 32⟩),
              (8500000000, ⟨0, 8, 8, 40⟩)] := by
  constructor
  · intro last i c
    unfold connBucketContribution
    split_ifs <;> simp
  · decide

/-- C10: the report's content is determined by the stats verbosity:
"none" emits no report; "summary" yields a report whose `Samples` is
nil and whose `ConnStats` is untouched (empty in a run), with only the
retransmit totals folded in, so the offline throughput analyzer fails
on it with "No samples found"; "all" retains the collected `Samples`
and materializes the per-connection `ConnStats` from the slot
table. -/
theorem printStats_verbosity_spec :
    (∀ (cData : List connData) (nConn : Nat) (s : statistics),
        printStats "none" cData nConn s = none)
  ∧ (∀ (cData : List connData) (nConn : Nat) (s : statistics),
      ∃ r, printStats "summary" cData nConn s = some r
        ∧ r = { s with
                Samples := []
                Retransmits := s.Retransmits + sumRetrans cData }
        ∧ r.Samples = [] ∧ r.ConnStats = s.ConnStats
        ∧ analyzeThroughput r = .error "No samples found")
  ∧ (∀ (cData : List connData) (nConn : Nat) (s : statistics),
      ∃ r, printStats "all" cData nConn s = some r
        ∧ r.Samples = s.Samples
        ∧ r.ConnStats = (List.range nConn).map (fun i =>
            if i < min cData.length nConn then
              connDataToConnstats s.Started (cData.getD i zeroConnData)
            else zeroConnstats)
        ∧ r.Retransmits = s.Retransmits + sumRetrans (cData.take nConn)) :=
  ⟨fun _ _ _ => rfl,
   fun cData n s => ⟨_, rfl, rfl, rfl, rfl, rfl⟩,
   fun cData n s => ⟨_, rfl, rfl, rfl, rfl⟩⟩

/-- Digit characters decode back to their value. -/
theorem digitVal_digitChar {d : Nat} (h : d < 10) :
    digitVal (digitChar d) = d := by
  interval_cases d <;> rfl

/-- Digit characters pass the digit test. -/
theorem isDigitChar_digitChar {d : Nat} (h : d < 10) :
    isDigitChar (digitChar d) = true := by
  interval_cases d <;> rfl

/-- Digit characters are not the minus sign. -/
theorem digitChar_ne_minus {d : Nat} (h : d < 10) : digitChar d ≠ '-' := by
  interval_cases d <;> decide

/-- Parsing inverts the decimal rendering of a Nat. -/
theorem parseNat_natToString (n : Nat) :
    parseNat (natToString n) = some n := by
  rcases Nat.eq_zero_or_pos n with h | h
  · subst h; rfl
  · have hne : Nat.digits 10 n ≠ [] :=
      Nat.digits_ne_nil_iff_ne_zero.mpr h.ne'
    have hlt : ∀ d ∈ Nat.digits 10 n, d < 10 := fun d hd =>
      Nat.digits_lt_base (by norm_num) hd
    rw [natToString, if_neg h.ne']
    rw [parseNat]
    rw [if_pos]
    · congr 1
      have hmap : ((Nat.digits 10 n).reverse.map digitChar).map digitVal
          = (Nat.digits 10 n).reverse := by
        rw [List.map_map]
        have : ∀ d ∈ (Nat.digits 10 n).reverse,
            (digitVal ∘ digitChar) d = id d := fun d hd => by
          simp only [Function.comp_apply, id]
          exact digitVal_digitChar (hlt d (List.mem_reverse.mp hd))
        rw [List.map_congr_left this, List.map_id]
      show Nat.ofDigits 10
          ((((Nat.digits 10 n).reverse.map digitChar).map digitVal).reverse)
        = n
      rw [hmap, List.reverse_reverse, Nat.ofDigits_digits]
    · constructor
      · show (Nat.digits 10 n).reverse.map digitChar ≠ []
        simp [hne]
      · show ((Nat.digits 10 n).reverse.map digitChar).all isDigitChar = true
        rw [List.all_eq_true]
        intro c hc
        obtain ⟨d, hd, hcd⟩ := List.mem_map.mp hc
        subst hcd
        exact isDigitChar_digitChar (hlt d (List.mem_reverse.mp hd))

/-- The decimal rendering of a Nat never starts with a minus sign. -/
theorem natToString_head_ne_minus (n : Nat) :
    (natToString n).data.head? ≠ some '-' := by
  rcases Nat.eq_zero_or_pos n with h | h
  · subst h; decide
  · rw [natToString, if_neg h.ne']
    show ((Nat.digits 10 n).reverse.map digitChar).head? ≠ some '-'
    cases hL : (Nat.digits 10 n).reverse with
    | nil =>
      exact absurd (List.reverse_eq_nil_iff.mp hL)
        (Nat.digits_ne_nil_iff_ne_zero.mpr h.ne')
    | cons d rest =>
      have hd : d ∈ Nat.digits 10 n := by
        have : d ∈ (Nat.digits 10 n).reverse := by rw [hL]; exact .head _
        exact List.mem_reverse.mp this
      have := digitChar_ne_minus (Nat.digits_lt_base (by norm_num) hd)
      simp [this]

/-- Parsing inverts the decimal rendering of an Int. -/
theorem parseIntStr_intToString (n : Int) :
    parseIntStr (intToString n) = some n := by
  rcases lt_or_le n 0 with h | h
  · rw [intToString, if_pos h, parseIntStr]
    rw [if_pos]
    · have hdata : ("-" ++ natToString n.natAbs).data
          = '-' :: (natToString n.natAbs).data := by
        rw [String.data_append]; rfl
      rw [hdata]
      show (parseNat (String.mk (natToString n.natAbs).data)).map
          (fun (m : Nat) => -(m : Int)) = some n
      have : String.mk (natToString n.natAbs).data = natToString n.natAbs :=
        rfl
      rw [this, parseNat_natToString]
      simp only [Option.map_some']
      congr 1
      omega
    · rw [String.data_append]
      rfl
  · rw [intToString, if_neg (not_lt.mpr h), parseIntStr]
    rw [if_neg (natToString_head_ne_minus n.toNat), parseNat_natToString]
    simp only [Option.map_some']
    congr 1
    omega

/-- A uint32 value survives JSON number encoding. -/
theorem parseU32_natCast {n : Nat} (h : wfU32 n) :
    parseU32 (.num (n : ℚ)) = some n := by
  have hn : ((n : ℚ)).num = (n : Int) := Rat.num_natCast n
  rw [parseU32, if_pos ⟨Rat.den_natCast n,
    by rw [hn]; exact Int.natCast_nonneg n,
    by rw [hn]; exact_mod_cast h⟩, hn]
  simp

/-- A 64-bit integer value survives JSON number encoding. -/
theorem parseI64_intCast {n : Int} (h : wfI64 n) :
    parseI64 (.num (n : ℚ)) = some n := by
  have hn : ((n : ℚ)).num = n := Rat.num_intCast n
  rw [parseI64, if_pos ⟨Rat.den_intCast n,
    by rw [hn]; exact h.1, by rw [hn]; exact h.2⟩, hn]

/-- A timestamp survives encoding. -/
theorem parseTime_encode (n : Int) :
    parseTime (.str (intToString n)) = some n := by
  rw [parseTime]; exact parseIntStr_intToString n

/-- Decoding inverts the marshalling of a `sample`. -/
theorem decodeSample_encodeSample {x : sample} (h : wfSample x) :
    decodeSample (encodeSample x) = some x := by
  obtain ⟨h1, h2, h3, h4⟩ := h
  obtain ⟨t, se, re, dr⟩ := x
  simp_all only [wfI64, wfU32]
  simp [decodeSample, encodeSample, assignSampleField,
    parseI64_intCast (show wfI64 t from h1),
    parseU32_natCast (show wfU32 se from h2),
    parseU32_natCast (show wfU32 re from h3),
    parseU32_natCast (show wfU32 dr from h4)]

/-- Decoding inverts the marshalling of a `connstats` record. -/
theorem decodeConnstats_encodeConnstats {c : connstats} (h : wfConn c) :
    decodeConnstats (encodeConnstats c) = some c := by
  obtain ⟨h1, h2, h3, h4, h5, h6, h7⟩ := h
  obtain ⟨st, co, en, er, se, re, dr, rt, lo, rm, ho⟩ := c
  by_cases hH : ho = "" <;>
    simp_all [decodeConnstats, encodeConnstats, assignConnField, parseStr,
      parseI64_intCast (show wfI64 st from h1),
      parseI64_intCast (show wfI64 co from h2),
      parseI64_intCast (show wfI64 en from h3),
      parseU32_natCast (show wfU32 se from h4),
      parseU32_natCast (show wfU32 re from h5),
      parseU32_natCast (show wfU32 dr from h6),
      parseU32_natCast (show wfU32 rt from h7), zeroConnstats]

/-- Decoding inverts the marshalling of a `connstats` list. -/
theorem parseConnArr_encode {L : List connstats} (h : ∀ c ∈ L, wfConn c) :
    parseConnArr (.arr (L.map encodeConnstats)) = some L := by
  rw [parseConnArr]
  induction L with
  | nil => rfl
  | cons a t ih =>
    simp only [List.map_cons, List.mapM_cons]
    rw [decodeConnstats_encodeConnstats (h a (.head _))]
    have := ih (fun c hc => h c (.tail _ hc))
    simp only [List.mapM_cons] at this ⊢
    simp_all

/-- Decoding inverts the marshalling of a `sample` list. -/
theorem parseSampleArr_encode {L : List sample} (h : ∀ x ∈ L, wfSample x) :
    parseSampleArr (.arr (L.map encodeSample)) = some L := by
  rw [parseSampleArr]
  induction L with
  | nil => rfl
  | cons a t ih =>
    simp only [List.map_cons, List.mapM_cons]
    rw [decodeSample_encodeSample (h a (.head _))]
    have := ih (fun x hx => h x (.tail _ hx))
    simp_all

/-- C9: the JSON statistics format round-trips: parsing (`readStats`)
the serialization of any in-range `statistics` value yields the value
back, field for field.  In-range means every field fits the Go type it
is declared at (uint32 counters, 64-bit durations), which every value
produced by the program satisfies. -/
theorem readStats_encodeStats (s : statistics) (h : wfStats s) :
    readStats (encodeStats s) = some s := by
  obtain ⟨hD, hC, hP, hFc, hS, hR, hDr, hRt, hFcon, hCS, hSa⟩ := h
  obtain ⟨f1, f2, f3, f4, f5, f6, f7, f8, f9, f10, f11, f12, f13⟩ := s
  by_cases hcs : f12 = [] <;> by_cases hsa : f13 = [] <;>
    simp_all [readStats, encodeStats, assignStatsField, parseF64,
      parseTime_encode, parseConnArr_encode, parseSampleArr_encode,
      parseI64_intCast (show wfI64 f2 from hD),
      parseI64_intCast (show wfI64 f4 from hC),
      parseU32_natCast (show wfU32 f5 from hP),
      parseU32_natCast (show wfU32 f6 from hFc),
      parseU32_natCast (show wfU32 f7 from hS),
      parseU32_natCast (show wfU32 f8 from hR),
      parseU32_natCast (show wfU32 f9 from hDr),
      parseU32_natCast (show wfU32 f10 from hRt),
      parseU32_natCast (show wfU32 f11 from hFcon), zeroStats]

/-- A concrete statistics value exercising both optional arrays. -/
def exampleReport : statistics :=
  ⟨1737448808293474852, 59993832043, 100, 200, 1024, 0, 5994, 5994, 0,
   0, 0,
   [⟨10000000, 100000000, 59993832043, "", 30, 30, 0, 0,
     "192.168.1.2:45678", "10.0.0.1:5003", "server-1"⟩,
    ⟨10000000, 0, 4500000000, "connection reset", 3, 2, 1, 7,
     "192.168.1.2:45679", "10.0.0.1:5003", ""⟩],
   [⟨1000000000, 99, 99, 0⟩, ⟨2000000000, 197, 197, 0⟩]⟩

/-- Witness for `readStats_encodeStats` on `exampleReport`. -/
theorem readStats_encodeStats_witness :
    wfStats exampleReport
    ∧ readStats (encodeStats exampleReport) = some exampleReport :=
  ⟨by unfold wfStats wfConn wfSample wfU32 wfI64; decide,
   readStats_encodeStats exampleReport
     (by unfold wfStats wfConn wfSample wfU32 wfI64; decide)⟩

end Ctraffic
